import Mathlib

/-!
# Verification of `tabox`'s `src/util.rs`

Shallow embedding of the three functions of `src/util.rs` of the `tabox`
crate — `setup_resource_limits`, `wait` and `strsignal` — together with
theorems settling the specification's claims about them.

Modelling conventions:
* OS calls (`setrlimit`, `wait4`, the C `strsignal`) are oracles: their
  observable answers are explicit parameters, and the process-wide limit
  state mutated by `setrlimit` is threaded as an explicit `OSState` value,
  so that "no rollback" and "order of application" are statable.
* Machine integers are `Nat`/`Int` with explicit `% 2 ^ 64` where the Rust
  code casts (`as u64`) or can wrap.
* `f64` values are modelled as exact rationals (`Rat`).  Every number the
  source builds here is `int-cast / 1_000_000 + int-cast`; the only
  identity used about it below (commutativity of the sum) holds for IEEE
  `f64` addition as well, so nothing proved depends on rounding.
-/

namespace Tabox

/-- Modelled from the spec: `SandboxConfiguration` (declared in
`configuration.rs`, which is not under `src/`) holds an optional
`memory_limit` (bytes, unsigned 64-bit) and an optional `time_limit`
(CPU seconds, unsigned 64-bit); an absent field means "do not constrain
this dimension". -/
structure SandboxConfiguration where
  memory_limit : Option Nat
  time_limit : Option Nat
deriving DecidableEq, Repr

/-- Modelled from the spec: `ExitStatus` (declared in `result.rs`, not under
`src/`) is a tagged variant — `ExitCode` for normal termination, `Signal`
for termination by a signal; no other shape is representable. -/
inductive ExitStatus where
  | ExitCode (code : Int)
  | Signal (signal : Int)
deriving DecidableEq, Repr

/-- Modelled from the spec: `ResourceUsage` (declared in `result.rs`, not
under `src/`): peak resident memory in bytes, user/system CPU seconds, and
a wall-clock field the collector itself never fills.  The three `f64`
fields are modelled as `Rat`. -/
structure ResourceUsage where
  memory_usage : Nat
  user_cpu_time : Rat
  system_cpu_time : Rat
  wall_time_usage : Rat
deriving DecidableEq, Repr

/-- Equality of `Except` results is decidable (used to evaluate the model
at concrete inputs). -/
instance instDecEqExcept {ε α : Type} [DecidableEq ε] [DecidableEq α] :
    DecidableEq (Except ε α) := fun a b =>
  match a, b with
  | Except.error e1, Except.error e2 =>
      if h : e1 = e2 then isTrue (congrArg Except.error h)
      else isFalse fun hc => h (Except.error.inj hc)
  | Except.error _, Except.ok _ => isFalse fun hc => Except.noConfusion hc
  | Except.ok _, Except.error _ => isFalse fun hc => Except.noConfusion hc
  | Except.ok a1, Except.ok a2 =>
      if h : a1 = a2 then isTrue (congrArg Except.ok h)
      else isFalse fun hc => h (Except.ok.inj hc)

/-- The three `libc` resource kinds `src/util.rs` passes to `setrlimit`:
`RLIMIT_AS`, `RLIMIT_CPU` and `RLIMIT_CORE`. -/
inductive Resource where
  | rlimit_as
  | rlimit_cpu
  | rlimit_core
deriving DecidableEq, Repr

/-- `libc::rlimit`: a soft (`rlim_cur`) and a hard (`rlim_max`) limit. -/
structure Rlimit where
  rlim_cur : Nat
  rlim_max : Nat
deriving DecidableEq, Repr

/-- The OS state visible through `setrlimit`: the per-resource limit table
of the calling process, plus the list of `setrlimit` invocations made so
far (each recorded as the resource and the requested limit pair), which
lets order-of-application claims be stated. -/
structure OSState where
  limits : Resource → Rlimit
  trace : List (Resource × Rlimit)

/-- Shallow model of `libc::setrlimit`.  The oracle `fails` says which
calls the OS rejects (returns `-1` for); a rejected call leaves the limit
table unchanged, an accepted one overwrites the entry for `resource`.
Every invocation is appended to the trace. -/
def setrlimit (fails : Resource → Rlimit → Bool) (resource : Resource)
    (rlim : Rlimit) (st : OSState) : Bool × OSState :=
  if fails resource rlim then
    (false, { st with trace := st.trace ++ [(resource, rlim)] })
  else
    (true,
      { limits := fun r => if r = resource then rlim else st.limits r,
        trace := st.trace ++ [(resource, rlim)] })

/-- `fn set_resource_limit(resource: Resource, limit: u64) -> Result<()>`
from `src/util.rs`: builds an `rlimit` with `rlim_cur` and `rlim_max` both
equal to `limit`, calls `setrlimit`, and maps a negative return to
`Err("Error calling setrlimit()")`. -/
def set_resource_limit (fails : Resource → Rlimit → Bool)
    (resource : Resource) (limit : Nat) (st : OSState) :
    Except String Unit × OSState :=
  let r := setrlimit fails resource { rlim_cur := limit, rlim_max := limit } st
  (if r.1 then Except.ok () else Except.error "Error calling setrlimit()", r.2)

/-- `pub fn setup_resource_limits(config: &SandboxConfiguration) ->
Result<()>` from `src/util.rs`: if `memory_limit` is present apply it to
`RLIMIT_AS`, then if `time_limit` is present apply it to `RLIMIT_CPU`,
then unconditionally set `RLIMIT_CORE` to `0`; the `?` operator makes each
failing step return early. -/
def setup_resource_limits (fails : Resource → Rlimit → Bool)
    (config : SandboxConfiguration) (st : OSState) :
    Except String Unit × OSState :=
  match (match config.memory_limit with
         | some memory_limit =>
             set_resource_limit fails Resource.rlimit_as memory_limit st
         | none => (Except.ok (), st)) with
  | (Except.error e, st1) => (Except.error e, st1)
  | (Except.ok _, st1) =>
    match (match config.time_limit with
           | some time_limit =>
               set_resource_limit fails Resource.rlimit_cpu time_limit st1
           | none => (Except.ok (), st1)) with
    | (Except.error e, st2) => (Except.error e, st2)
    | (Except.ok _, st2) => set_resource_limit fails Resource.rlimit_core 0 st2

/-- glibc `WTERMSIG(status)`: `status & 0x7f`. -/
def WTERMSIG (status : Nat) : Nat := status % 128

/-- glibc `WEXITSTATUS(status)`: `(status & 0xff00) >> 8`. -/
def WEXITSTATUS (status : Nat) : Nat := status / 256 % 256

/-- glibc `WIFEXITED(status)`: `WTERMSIG(status) == 0`. -/
def WIFEXITED (status : Nat) : Bool := status % 128 == 0

/-- glibc `WIFSIGNALED(status)`:
`((signed char)(((status & 0x7f) + 1)) >> 1) > 0`; the cast to
`signed char` is `Int.bmod · 256`, the arithmetic shift of the resulting
even-or-positive value is division by two. -/
def WIFSIGNALED (status : Nat) : Bool :=
  decide (0 < Int.bmod (status % 128 + 1) 256 / 2)

/-- `libc::timeval`: whole seconds and microseconds, both signed. -/
structure Timeval where
  tv_sec : Int
  tv_usec : Int
deriving DecidableEq, Repr

/-- The fields of `libc::rusage` that `src/util.rs` reads: peak resident
set count `ru_maxrss` (a signed long) and the user/system CPU timevals. -/
structure Rusage where
  ru_maxrss : Int
  ru_utime : Timeval
  ru_stime : Timeval
deriving DecidableEq, Repr

/-- Rust `as u64` on a signed integer: reduce modulo `2 ^ 64` into
`[0, 2 ^ 64)`. -/
def toU64 (x : Int) : Nat := (x % (2 ^ 64 : Int)).toNat

/-- The `ResourceUsage` record literal built by `wait` in `src/util.rs`:
`memory_usage = rusage.ru_maxrss as u64 * 1024` (u64 arithmetic, hence the
`% 2 ^ 64`), each CPU time `tv_usec as f64 / 1_000_000.0 + tv_sec as f64`,
and `wall_time_usage = 0.0`. -/
def resource_usage_of (rusage : Rusage) : ResourceUsage :=
  { memory_usage := toU64 rusage.ru_maxrss * 1024 % 2 ^ 64,
    user_cpu_time :=
      (rusage.ru_utime.tv_usec : Rat) / 1000000 + (rusage.ru_utime.tv_sec : Rat),
    system_cpu_time :=
      (rusage.ru_stime.tv_usec : Rat) / 1000000 + (rusage.ru_stime.tv_sec : Rat),
    wall_time_usage := 0 }

/-- `pub fn wait(pid: libc::pid_t) -> Result<(ExitStatus, ResourceUsage)>`
from `src/util.rs`.  The `wait4` system call is an oracle: `ret` is its
return value and `status`, `rusage` the values it stored through its out
pointers.  If `ret ≠ pid` the function fails; otherwise the raw status is
classified (exited, then signaled, then a hard error) and the resource
usage converted. -/
def wait (pid ret : Int) (status : Nat) (rusage : Rusage) :
    Except String (ExitStatus × ResourceUsage) :=
  if ret ≠ pid then Except.error "Error waiting for child completion"
  else
    match (if WIFEXITED status then
             Except.ok (ExitStatus.ExitCode (WEXITSTATUS status))
           else if WIFSIGNALED status then
             Except.ok (ExitStatus.Signal (WTERMSIG status))
           else Except.error "Child terminated with unknown status" :
           Except String ExitStatus) with
    | Except.error e => Except.error e
    | Except.ok es => Except.ok (es, resource_usage_of rusage)

/-- `pub fn strsignal(signal: i32) -> Option<String>` from `src/util.rs`.
`platformUnix` is the `cfg(unix)` flag; `raw signal` is the C string the
platform's `strsignal` returns (on the platforms the crate runs on it is
never a null pointer).  On unix the result is `None` for an empty
description and `Some` of it otherwise; off unix it is always `None`. -/
def strsignal (platformUnix : Bool) (raw : Int → String) (signal : Int) :
    Option String :=
  if platformUnix then
    if (raw signal).isEmpty then none else some (raw signal)
  else none

/-- Modelled from the spec: the platform-dependent accounting unit of
`ru_maxrss` ("raw accounting units are platform-dependent — on some
platforms the unit is kilobytes"); on Linux it is kilobytes, on e.g. macOS
it is bytes. -/
inductive MaxrssUnit where
  | kilobytes
  | bytes
deriving DecidableEq, Repr

/-- Modelled from the spec: "peak resident-set size must be normalized to
bytes" — the byte value a raw `ru_maxrss` count denotes under a given
platform unit. -/
def normalizedBytes : MaxrssUnit → Int → Int
  | MaxrssUnit.kilobytes, m => m * 1024
  | MaxrssUnit.bytes, m => m

/-! ## Helper lemmas -/

theorem setrlimit_trace (fails : Resource → Rlimit → Bool)
    (resource : Resource) (rlim : Rlimit) (st : OSState) :
    ((setrlimit fails resource rlim st).2).trace = st.trace ++ [(resource, rlim)] := by
  unfold setrlimit
  by_cases h : fails resource rlim = true <;> simp [h]

theorem set_resource_limit_trace (fails : Resource → Rlimit → Bool)
    (resource : Resource) (limit : Nat) (st : OSState) :
    ((set_resource_limit fails resource limit st).2).trace =
      st.trace ++ [(resource, { rlim_cur := limit, rlim_max := limit })] := by
  unfold set_resource_limit
  exact setrlimit_trace ..

theorem set_resource_limit_ok (fails : Resource → Rlimit → Bool)
    (resource : Resource) (limit : Nat) (st : OSState)
    (h : fails resource { rlim_cur := limit, rlim_max := limit } = false) :
    set_resource_limit fails resource limit st =
      (Except.ok (),
        { limits := fun r =>
            if r = resource then { rlim_cur := limit, rlim_max := limit }
            else st.limits r,
          trace := st.trace ++
            [(resource, { rlim_cur := limit, rlim_max := limit })] }) := by
  simp [set_resource_limit, setrlimit, h]

theorem set_resource_limit_err (fails : Resource → Rlimit → Bool)
    (resource : Resource) (limit : Nat) (st : OSState)
    (h : fails resource { rlim_cur := limit, rlim_max := limit } = true) :
    set_resource_limit fails resource limit st =
      (Except.error "Error calling setrlimit()",
        { st with trace := st.trace ++
            [(resource, { rlim_cur := limit, rlim_max := limit })] }) := by
  simp [set_resource_limit, setrlimit, h]

theorem wait_ok_usage (pid ret : Int) (status : Nat) (rusage : Rusage)
    (es : ExitStatus) (u : ResourceUsage)
    (h : wait pid ret status rusage = Except.ok (es, u)) :
    u = resource_usage_of rusage := by
  unfold wait at h
  split at h
  · exact absurd h (by simp)
  · split at h <;> simp_all

/-! ## Claims about `wait` -/

/-- C1: when `wait4` returns the requested pid, `wait` classifies the raw
status in order — normal exit yields `ExitCode` with the process's exit
code; otherwise signal termination yields `Signal` with the terminating
signal number; any other status shape yields the hard error, never a
placeholder result. -/
theorem c1_wait_classifies_in_order (pid ret : Int) (status : Nat)
    (rusage : Rusage) (h : ret = pid) :
    wait pid ret status rusage =
      if WIFEXITED status then
        Except.ok (ExitStatus.ExitCode (WEXITSTATUS status),
          resource_usage_of rusage)
      else if WIFSIGNALED status then
        Except.ok (ExitStatus.Signal (WTERMSIG status),
          resource_usage_of rusage)
      else Except.error "Child terminated with unknown status" := by
  subst h
  unfold wait
  by_cases h1 : WIFEXITED status <;> by_cases h2 : WIFSIGNALED status <;>
    simp [h1, h2]

/-- Witness for C1 at a concrete input: status `1792 = 7 * 256` encodes a
normal exit with code `7`. -/
theorem c1_witness :
    wait 5 5 1792 { ru_maxrss := 1, ru_utime := ⟨0, 0⟩, ru_stime := ⟨0, 0⟩ } =
      Except.ok (ExitStatus.ExitCode 7,
        resource_usage_of { ru_maxrss := 1, ru_utime := ⟨0, 0⟩, ru_stime := ⟨0, 0⟩ }) :=
  (c1_wait_classifies_in_order 5 5 1792
    { ru_maxrss := 1, ru_utime := ⟨0, 0⟩, ru_stime := ⟨0, 0⟩ } rfl).trans (by rfl)

/-- C7: whenever the underlying `wait4` call does not return the requested
pid, `wait` returns the error and produces no `(ExitStatus, ResourceUsage)`
pair; there is no internal retry (the model makes a single `wait4` call). -/
theorem c7_wait_wrong_pid_is_error (pid ret : Int) (status : Nat)
    (rusage : Rusage) (h : ret ≠ pid) :
    wait pid ret status rusage =
      Except.error "Error waiting for child completion" := by
  simp [wait, h]

/-- Witness for C7: `wait4` answering pid `2` for requested pid `1`. -/
theorem c7_witness :
    wait 1 2 0 { ru_maxrss := 1, ru_utime := ⟨0, 0⟩, ru_stime := ⟨0, 0⟩ } =
      Except.error "Error waiting for child completion" :=
  c7_wait_wrong_pid_is_error 1 2 0
    { ru_maxrss := 1, ru_utime := ⟨0, 0⟩, ru_stime := ⟨0, 0⟩ } (by decide)

/-- C8: every successful `wait` returns a `ResourceUsage` whose
`wall_time_usage` is exactly `0`, whatever the raw status and accounting
data were. -/
theorem c8_wall_time_usage_zero (pid ret : Int) (status : Nat)
    (rusage : Rusage) (es : ExitStatus) (u : ResourceUsage)
    (h : wait pid ret status rusage = Except.ok (es, u)) :
    u.wall_time_usage = 0 := by
  have hu := wait_ok_usage pid ret status rusage es u h
  subst hu
  rfl

/-- Witness for C8 at a concrete successful wait. -/
theorem c8_witness :
    (resource_usage_of
        { ru_maxrss := 3, ru_utime := ⟨1, 0⟩, ru_stime := ⟨2, 0⟩ }).wall_time_usage
      = 0 :=
  c8_wall_time_usage_zero 5 5 0
    { ru_maxrss := 3, ru_utime := ⟨1, 0⟩, ru_stime := ⟨2, 0⟩ }
    (ExitStatus.ExitCode 0) _ (by rfl)

/-- C10: every successful `wait` reports a `memory_usage` divisible by
`1024`, because the raw `ru_maxrss` count is multiplied by `1024` (in u64
arithmetic) on every platform. -/
theorem c10_memory_usage_divisible_by_1024 (pid ret : Int) (status : Nat)
    (rusage : Rusage) (es : ExitStatus) (u : ResourceUsage)
    (h : wait pid ret status rusage = Except.ok (es, u)) :
    1024 ∣ u.memory_usage := by
  have hu := wait_ok_usage pid ret status rusage es u h
  subst hu
  show 1024 ∣ toU64 rusage.ru_maxrss * 1024 % 2 ^ 64
  have h1 : (1024 : Nat) ∣ 2 ^ 64 := ⟨2 ^ 54, by norm_num⟩
  exact (Nat.dvd_mod_iff h1).mpr (dvd_mul_left 1024 _)

/-- Witness for C10 at a concrete successful wait. -/
theorem c10_witness :
    1024 ∣ (resource_usage_of
      { ru_maxrss := 7, ru_utime := ⟨0, 0⟩, ru_stime := ⟨0, 0⟩ }).memory_usage :=
  c10_memory_usage_divisible_by_1024 5 5 0
    { ru_maxrss := 7, ru_utime := ⟨0, 0⟩, ru_stime := ⟨0, 0⟩ }
    (ExitStatus.ExitCode 0) _ (by rfl)

/-! ## Claim about `strsignal` -/

/-- C3: `strsignal` is a total function of an arbitrary integer — it never
fails — and it returns `none` exactly when the platform lacks the
textual-description facility or the platform call yields an empty
description, and otherwise `some` of the description. -/
theorem c3_strsignal_characterization (platformUnix : Bool)
    (raw : Int → String) (signal : Int) :
    strsignal platformUnix raw signal =
      if platformUnix = true ∧ (raw signal).isEmpty = false then
        some (raw signal)
      else none := by
  unfold strsignal
  cases platformUnix <;> by_cases h : (raw signal).isEmpty <;> simp_all

/-! ## Claims about `setup_resource_limits` -/

/-- C4: when `setup_resource_limits` succeeds, the sequence of `setrlimit`
applications it made is exactly — the memory (`RLIMIT_AS`) limit if and
only if `memory_limit` is present, then the CPU-time (`RLIMIT_CPU`) limit
if and only if `time_limit` is present, then unconditionally `RLIMIT_CORE`
set to zero — in that deterministic order. -/
theorem c4_setup_order_and_conditionality
    (fails : Resource → Rlimit → Bool) (config : SandboxConfiguration)
    (st : OSState)
    (h : (setup_resource_limits fails config st).1 = Except.ok ()) :
    ((setup_resource_limits fails config st).2).trace =
      st.trace
      ++ (config.memory_limit.elim [] fun m =>
            [(Resource.rlimit_as, { rlim_cur := m, rlim_max := m })])
      ++ (config.time_limit.elim [] fun t =>
            [(Resource.rlimit_cpu, { rlim_cur := t, rlim_max := t })])
      ++ [(Resource.rlimit_core, { rlim_cur := 0, rlim_max := 0 })] := by
  obtain ⟨ml, tl⟩ := config
  rcases ml with _ | m <;> rcases tl with _ | t <;>
    simp only [setup_resource_limits, set_resource_limit, setrlimit] at h ⊢ <;>
    split_ifs at h ⊢ <;>
    simp_all [Option.elim]

/-- Witness for C4: both limits present, no OS failure. -/
theorem c4_witness :
    ((setup_resource_limits (fun _ _ => false)
        { memory_limit := some 5, time_limit := some 7 }
        { limits := fun _ => { rlim_cur := 1, rlim_max := 2 }, trace := [] }).2).trace =
      [(Resource.rlimit_as, { rlim_cur := 5, rlim_max := 5 }),
       (Resource.rlimit_cpu, { rlim_cur := 7, rlim_max := 7 }),
       (Resource.rlimit_core, { rlim_cur := 0, rlim_max := 0 })] :=
  c4_setup_order_and_conditionality (fun _ _ => false)
    { memory_limit := some 5, time_limit := some 7 }
    { limits := fun _ => { rlim_cur := 1, rlim_max := 2 }, trace := [] } rfl

/-- C5: if the OS rejects the `setrlimit` call for any of the three
dimensions `setup_resource_limits` would apply, the function returns an
error, and limits that were already applied to earlier dimensions are not
rolled back (they remain in the final limit table). -/
theorem c5_error_propagation_no_rollback
    (fails : Resource → Rlimit → Bool) (config : SandboxConfiguration)
    (st : OSState)
    (h : fails Resource.rlimit_core { rlim_cur := 0, rlim_max := 0 } = true
       ∨ (∃ m, config.memory_limit = some m
            ∧ fails Resource.rlimit_as { rlim_cur := m, rlim_max := m } = true)
       ∨ (∃ t, config.time_limit = some t
            ∧ fails Resource.rlimit_cpu { rlim_cur := t, rlim_max := t } = true)) :
    (∃ e, (setup_resource_limits fails config st).1 = Except.error e)
    ∧ (∀ m, config.memory_limit = some m →
        fails Resource.rlimit_as { rlim_cur := m, rlim_max := m } = false →
        ((setup_resource_limits fails config st).2).limits Resource.rlimit_as =
          { rlim_cur := m, rlim_max := m })
    ∧ (∀ t, config.time_limit = some t →
        fails Resource.rlimit_cpu { rlim_cur := t, rlim_max := t } = false →
        (∀ m, config.memory_limit = some m →
          fails Resource.rlimit_as { rlim_cur := m, rlim_max := m } = false) →
        ((setup_resource_limits fails config st).2).limits Resource.rlimit_cpu =
          { rlim_cur := t, rlim_max := t }) := by
  obtain ⟨ml, tl⟩ := config
  rcases ml with _ | m <;> rcases tl with _ | t <;>
    simp only [setup_resource_limits, set_resource_limit, setrlimit] at h ⊢ <;>
    split_ifs at h ⊢ <;>
    simp_all

/-- Witness for C5: memory applied successfully, then the core-dump call
fails; the address-space limit stays applied and the result is an error. -/
theorem c5_witness :
    (∃ e, (setup_resource_limits (fun r _ => r == Resource.rlimit_core)
        { memory_limit := some 5, time_limit := none }
        { limits := fun _ => { rlim_cur := 1, rlim_max := 2 }, trace := [] }).1 =
          Except.error e)
    ∧ ((setup_resource_limits (fun r _ => r == Resource.rlimit_core)
        { memory_limit := some 5, time_limit := none }
        { limits := fun _ => { rlim_cur := 1, rlim_max := 2 }, trace := [] }).2).limits
          Resource.rlimit_as = { rlim_cur := 5, rlim_max := 5 } := by
  have h := c5_error_propagation_no_rollback (fun r _ => r == Resource.rlimit_core)
    { memory_limit := some 5, time_limit := none }
    { limits := fun _ => { rlim_cur := 1, rlim_max := 2 }, trace := [] }
    (Or.inl (by decide))
  exact ⟨h.1, h.2.1 5 rfl (by decide)⟩

/-- C6: every `rlimit` that `setup_resource_limits` passes to `setrlimit`
has its soft limit equal to its hard limit (the configured value, or zero
for core dumps). -/
theorem c6_soft_limit_equals_hard_limit
    (fails : Resource → Rlimit → Bool) (config : SandboxConfiguration)
    (st : OSState) (h : st.trace = []) :
    ∀ p ∈ ((setup_resource_limits fails config st).2).trace,
      p.2.rlim_cur = p.2.rlim_max := by
  obtain ⟨ml, tl⟩ := config
  rcases ml with _ | m <;> rcases tl with _ | t <;>
    simp only [setup_resource_limits, set_resource_limit, setrlimit] at * <;>
    split_ifs <;>
    simp_all

/-- Witness for C6 at a concrete run whose trace contains the applied
memory limit. -/
theorem c6_witness :
    ((Resource.rlimit_as, ({ rlim_cur := 5, rlim_max := 5 } : Rlimit))).2.rlim_cur =
      ((Resource.rlimit_as, ({ rlim_cur := 5, rlim_max := 5 } : Rlimit))).2.rlim_max :=
  c6_soft_limit_equals_hard_limit (fun _ _ => false)
    { memory_limit := some 5, time_limit := none }
    { limits := fun _ => { rlim_cur := 1, rlim_max := 2 }, trace := [] } rfl
    (Resource.rlimit_as, { rlim_cur := 5, rlim_max := 5 }) (by simp
      [setup_resource_limits, set_resource_limit, setrlimit])

/-- C9: with both optional limits absent (and the always-permitted
lowering of the core-dump limit to zero accepted by the OS, as it always
is), `setup_resource_limits` succeeds, leaves the address-space and
CPU-time limits exactly as inherited, and sets the core-dump limit to
zero. -/
theorem c9_no_limits_frame
    (fails : Resource → Rlimit → Bool) (config : SandboxConfiguration)
    (st : OSState)
    (hm : config.memory_limit = none) (ht : config.time_limit = none)
    (hc : fails Resource.rlimit_core { rlim_cur := 0, rlim_max := 0 } = false) :
    (setup_resource_limits fails config st).1 = Except.ok ()
    ∧ ((setup_resource_limits fails config st).2).limits Resource.rlimit_as =
        st.limits Resource.rlimit_as
    ∧ ((setup_resource_limits fails config st).2).limits Resource.rlimit_cpu =
        st.limits Resource.rlimit_cpu
    ∧ ((setup_resource_limits fails config st).2).limits Resource.rlimit_core =
        { rlim_cur := 0, rlim_max := 0 } := by
  obtain ⟨ml, tl⟩ := config
  simp only at hm ht
  subst hm ht
  simp [setup_resource_limits, set_resource_limit, setrlimit, hc]

/-- Witness for C9 at a concrete empty configuration. -/
theorem c9_witness :
    (setup_resource_limits (fun _ _ => false)
        { memory_limit := none, time_limit := none }
        { limits := fun _ => { rlim_cur := 1, rlim_max := 2 }, trace := [] }).1 =
      Except.ok ()
    ∧ ((setup_resource_limits (fun _ _ => false)
        { memory_limit := none, time_limit := none }
        { limits := fun _ => { rlim_cur := 1, rlim_max := 2 }, trace := [] }).2).limits
          Resource.rlimit_as = { rlim_cur := 1, rlim_max := 2 }
    ∧ ((setup_resource_limits (fun _ _ => false)
        { memory_limit := none, time_limit := none }
        { limits := fun _ => { rlim_cur := 1, rlim_max := 2 }, trace := [] }).2).limits
          Resource.rlimit_cpu = { rlim_cur := 1, rlim_max := 2 }
    ∧ ((setup_resource_limits (fun _ _ => false)
        { memory_limit := none, time_limit := none }
        { limits := fun _ => { rlim_cur := 1, rlim_max := 2 }, trace := [] }).2).limits
          Resource.rlimit_core = { rlim_cur := 0, rlim_max := 0 } :=
  c9_no_limits_frame (fun _ _ => false)
    { memory_limit := none, time_limit := none }
    { limits := fun _ => { rlim_cur := 1, rlim_max := 2 }, trace := [] }
    rfl rfl rfl

/-! ## Claim C2: memory normalization is NOT platform-conditional -/

/-- Counterexample to C2 as stated: the source multiplies `ru_maxrss` by
`1024` unconditionally, with no platform condition, so on a platform whose
accounting unit is bytes (e.g. macOS) a raw count of `1` is reported as
`1024`, which is not the spec's byte normalization `1` for that platform.
(The multiplication is exact byte normalization only on kilobyte-unit
platforms.) -/
theorem c2_counterexample :
    wait 5 5 0 { ru_maxrss := 1, ru_utime := ⟨0, 0⟩, ru_stime := ⟨0, 0⟩ } =
      Except.ok (ExitStatus.ExitCode 0,
        resource_usage_of { ru_maxrss := 1, ru_utime := ⟨0, 0⟩, ru_stime := ⟨0, 0⟩ })
    ∧ (resource_usage_of
        { ru_maxrss := 1, ru_utime := ⟨0, 0⟩, ru_stime := ⟨0, 0⟩ }).memory_usage = 1024
    ∧ normalizedBytes MaxrssUnit.bytes 1 = 1
    ∧ ((1024 : Int) ≠ normalizedBytes MaxrssUnit.bytes 1) := by
  refine ⟨by rfl, ?_, by rfl, by decide⟩
  show toU64 1 * 1024 % 2 ^ 64 = 1024
  norm_num [toU64]

/-- C2 amended: for every successful `wait`, `memory_usage` equals the raw
peak resident-set count multiplied by `1024` on **every** platform (this
is the byte normalization precisely on platforms whose accounting unit is
kilobytes), and each CPU time equals raw whole seconds plus raw
microseconds divided by `1_000_000` (the hypotheses keep the raw count in
the range where the u64 cast and multiplication do not wrap, as on any
real accounting datum). -/
theorem c2_amended_unit_conversion (pid ret : Int) (status : Nat)
    (rusage : Rusage) (es : ExitStatus) (u : ResourceUsage)
    (h : wait pid ret status rusage = Except.ok (es, u))
    (hnn : 0 ≤ rusage.ru_maxrss)
    (hsmall : rusage.ru_maxrss * 1024 < 2 ^ 64) :
    (u.memory_usage : Int) = rusage.ru_maxrss * 1024
    ∧ (u.memory_usage : Int) = normalizedBytes MaxrssUnit.kilobytes rusage.ru_maxrss
    ∧ u.user_cpu_time =
        (rusage.ru_utime.tv_sec : Rat) + (rusage.ru_utime.tv_usec : Rat) / 1000000
    ∧ u.system_cpu_time =
        (rusage.ru_stime.tv_sec : Rat) + (rusage.ru_stime.tv_usec : Rat) / 1000000 := by
  have hu := wait_ok_usage pid ret status rusage es u h
  subst hu
  have hmem : ((resource_usage_of rusage).memory_usage : Int) =
      rusage.ru_maxrss * 1024 := by
    show ((toU64 rusage.ru_maxrss * 1024 % 2 ^ 64 : Nat) : Int) = rusage.ru_maxrss * 1024
    unfold toU64
    have eN : (2 : Nat) ^ 64 = 18446744073709551616 := by norm_num
    have eZ : (2 : Int) ^ 64 = 18446744073709551616 := by norm_num
    rw [eN, eZ] at *
    omega
  exact ⟨hmem, hmem, add_comm _ _, add_comm _ _⟩

/-- Witness for the amended C2 at a concrete successful wait: raw maxrss
`2`, user time `1 s + 500000 µs`, system time `3 s + 250000 µs`. -/
theorem c2_witness :
    ((resource_usage_of
        { ru_maxrss := 2, ru_utime := ⟨1, 500000⟩, ru_stime := ⟨3, 250000⟩ }).memory_usage
      : Int) = 2 * 1024
    ∧ ((resource_usage_of
        { ru_maxrss := 2, ru_utime := ⟨1, 500000⟩, ru_stime := ⟨3, 250000⟩ }).memory_usage
      : Int) = normalizedBytes MaxrssUnit.kilobytes 2
    ∧ (resource_usage_of
        { ru_maxrss := 2, ru_utime := ⟨1, 500000⟩, ru_stime := ⟨3, 250000⟩ }).user_cpu_time
      = (1 : Rat) + (500000 : Rat) / 1000000
    ∧ (resource_usage_of
        { ru_maxrss := 2, ru_utime := ⟨1, 500000⟩, ru_stime := ⟨3, 250000⟩ }).system_cpu_time
      = (3 : Rat) + (250000 : Rat) / 1000000 :=
  c2_amended_unit_conversion 5 5 0
    { ru_maxrss := 2, ru_utime := ⟨1, 500000⟩, ru_stime := ⟨3, 250000⟩ }
    (ExitStatus.ExitCode 0) _ (by rfl) (by norm_num) (by norm_num)

end Tabox
